import Mathlib

/-!
Shallow embedding of the steadyhash checksum utility (Rust sources under
src/): the algorithm dispatch (src/main.rs, `Checksum` and
`calculate_checksum`), the four digest engines (src/hashing/shasum.rs,
sha3.rs, blake2b.rs, md5.rs), the error types with their display
messages (src/errors.rs), the manifest line rendering of
`checksum_files` and the manifest line decoding plus verification loop
of `check_files` (src/main.rs).

Bytes are modelled as natural numbers (values of Rust u8, < 256).  The
underlying hash primitives (sha1/sha2/sha3/md5/blake2 crates) are
external collaborators of the repository; they are abstracted as a
`Primitives` record of byte-producing functions together with the
well-formedness predicate `Primitives.WF` stating the output lengths
the crates guarantee (20/28/32/48/64 bytes for SHA, 16 for MD5, n bytes
for variable BLAKE2b with n output bytes requested).
-/

namespace Steadyhash

/-- The closed algorithm variant from src/main.rs (`enum Checksum`). -/
inductive Checksum where
  | Sha
  | Sha3
  | Md5
  | Blake2b
  deriving DecidableEq, Repr

/-- Decimal digit characters, fuel-indexed: embedding of Rust's decimal
`Display` formatting of an unsigned integer.  The fuel argument makes the
recursion structural; `natToString` supplies enough fuel. -/
def decDigitsAux : Nat → Nat → List Char
  | 0, _ => []
  | fuel + 1, n =>
    if n < 10 then [Char.ofNat (48 + n)]
    else decDigitsAux fuel (n / 10) ++ [Char.ofNat (48 + n % 10)]

/-- Decimal rendering of a natural number, as Rust's `{}` format for usize. -/
def natToString (n : Nat) : String := ⟨decDigitsAux (n + 1) n⟩

/-- Lowercase hex digit for a nibble, as Rust's `{:x}`/`{:02x}` formatting. -/
def hexDigitChar (n : Nat) : Char :=
  if n < 10 then Char.ofNat (48 + n) else Char.ofNat (87 + n)

/-- Lowercase two-digit hex encoding of a byte list, the embedding of the
per-byte `write!(s, "{:02x}", b)` loop (blake2b.rs) and of the `{:x}`
digest formatting / `hex::encode` used by the other engines; on bytes
(< 256) the two nibbles are `b / 16` and `b % 16`. -/
def hexEncodeChars : List Nat → List Char
  | [] => []
  | b :: bs => hexDigitChar (b / 16 % 16) :: hexDigitChar (b % 16) :: hexEncodeChars bs

/-- Hex digest string of a byte list. -/
def hexEncode (bs : List Nat) : String := ⟨hexEncodeChars bs⟩

/-- A character is a lowercase hexadecimal digit (0-9 or a-f). -/
def isLowerHexChar (c : Char) : Bool :=
  (48 ≤ c.toNat && c.toNat ≤ 57) || (97 ≤ c.toNat && c.toNat ≤ 102)

/-- Abstraction of the external hash crates: one byte-level digest
function per fixed-width primitive, and the variable-output BLAKE2b
primitive indexed by its output byte count. -/
structure Primitives where
  sha1 : List Nat → List Nat
  sha224 : List Nat → List Nat
  sha256 : List Nat → List Nat
  sha384 : List Nat → List Nat
  sha512 : List Nat → List Nat
  sha3v224 : List Nat → List Nat
  sha3v256 : List Nat → List Nat
  sha3v384 : List Nat → List Nat
  sha3v512 : List Nat → List Nat
  md5 : List Nat → List Nat
  blake2bVar : Nat → List Nat → List Nat

/-- Output-length guarantees of the external hash crates. -/
def Primitives.WF (p : Primitives) : Prop :=
  (∀ d, (p.sha1 d).length = 20) ∧
  (∀ d, (p.sha224 d).length = 28) ∧
  (∀ d, (p.sha256 d).length = 32) ∧
  (∀ d, (p.sha384 d).length = 48) ∧
  (∀ d, (p.sha512 d).length = 64) ∧
  (∀ d, (p.sha3v224 d).length = 28) ∧
  (∀ d, (p.sha3v256 d).length = 32) ∧
  (∀ d, (p.sha3v384 d).length = 48) ∧
  (∀ d, (p.sha3v512 d).length = 64) ∧
  (∀ d, (p.md5 d).length = 16) ∧
  (∀ n d, (p.blake2bVar n d).length = n)

/-- A concrete all-zero instantiation of the primitives, used to
evaluate the embedding on closed inputs. -/
def dummyPrim : Primitives where
  sha1 := fun _ => List.replicate 20 0
  sha224 := fun _ => List.replicate 28 0
  sha256 := fun _ => List.replicate 32 0
  sha384 := fun _ => List.replicate 48 0
  sha512 := fun _ => List.replicate 64 0
  sha3v224 := fun _ => List.replicate 28 0
  sha3v256 := fun _ => List.replicate 32 0
  sha3v384 := fun _ => List.replicate 48 0
  sha3v512 := fun _ => List.replicate 64 0
  md5 := fun _ => List.replicate 16 0
  blake2bVar := fun n _ => List.replicate n 0

theorem dummyPrim_wf : dummyPrim.WF := by
  refine ⟨?_, ?_, ?_, ?_, ?_, ?_, ?_, ?_, ?_, ?_, ?_⟩ <;> intros <;> simp [dummyPrim]

/-- src/errors.rs: `ShaSumError`. -/
inductive ShaSumError where
  | InvalidChecksumType (width : Nat)
  deriving DecidableEq, Repr

/-- src/errors.rs: `Sha3SumError`; the `UnexpectedError` variant is the
one referenced by the default branch of `Sha3Sum::get_checksum` in
src/hashing/sha3.rs. -/
inductive Sha3SumError where
  | InvalidChecksumType (width : Nat)
  | UnexpectedError (msg : String)
  deriving DecidableEq, Repr

/-- src/errors.rs: `B2SumError`. -/
inductive B2SumError where
  | InvalidChecksumType (width : Nat)
  deriving DecidableEq, Repr

/-- The thiserror display message of `ShaSumError` (src/errors.rs). -/
def ShaSumError.message : ShaSumError → String
  | .InvalidChecksumType w =>
    "Invalid checksum type 'SHA-" ++ natToString w ++
      "'. The only supported types are SHA1, SHA256 and SHA512"

/-- The thiserror display message of `Sha3SumError` (src/errors.rs); the
`UnexpectedError` variant has no display attribute in errors.rs, its
message is modelled as its payload. -/
def Sha3SumError.message : Sha3SumError → String
  | .InvalidChecksumType w =>
    "Invalid checksum type 'SHA3-" ++ natToString w ++
      "'. The only supported types are SHA3-224, SHA3-256, SHA3-384 and SHA3-512"
  | .UnexpectedError m => m

/-- The thiserror display message of `B2SumError` (src/errors.rs). -/
def B2SumError.message : B2SumError → String
  | .InvalidChecksumType w =>
    "Invalid checksum type 'BLAKE2B-" ++ natToString w ++
      "'. The only supported types are BLAKE2B-256 and BLAKE2B-512"

/-- src/hashing/shasum.rs: `struct ShaSum`. -/
structure ShaSum where
  checksum_bits : Nat
  data : List Nat
  deriving DecidableEq, Repr

/-- src/hashing/shasum.rs: `ShaSum::VALID_VALUES`. -/
def ShaSum.VALID_VALUES : List Nat := [160, 224, 256, 384, 512]

/-- src/hashing/shasum.rs: `ShaSum::new`; list containment is written as
membership (Rust's `contains` on usize slices). -/
def ShaSum.new (checksum_type : Nat) (data : List Nat) : Except ShaSumError ShaSum :=
  if checksum_type ∈ ShaSum.VALID_VALUES then
    .ok { checksum_bits := checksum_type, data := data }
  else
    .error (ShaSumError.InvalidChecksumType checksum_type)

/-- src/hashing/shasum.rs: `ShaSum::get_checksum`; the default branch is
`unreachable!()` in the source and is modelled by the empty string. -/
def ShaSum.get_checksum (p : Primitives) (s : ShaSum) : String :=
  match s.checksum_bits with
  | 160 => hexEncode (p.sha1 s.data)
  | 224 => hexEncode (p.sha224 s.data)
  | 256 => hexEncode (p.sha256 s.data)
  | 384 => hexEncode (p.sha384 s.data)
  | 512 => hexEncode (p.sha512 s.data)
  | _ => ""

/-- src/hashing/sha3.rs: `struct Sha3Sum`. -/
structure Sha3Sum where
  checksum_type : Nat
  data : List Nat
  deriving DecidableEq, Repr

/-- src/hashing/sha3.rs: `Sha3Sum::VALID_VALUES`. -/
def Sha3Sum.VALID_VALUES : List Nat := [224, 256, 384, 512]

/-- src/hashing/sha3.rs: `Sha3Sum::new`. -/
def Sha3Sum.new (checksum_type : Nat) (data : List Nat) : Except Sha3SumError Sha3Sum :=
  if checksum_type ∈ Sha3Sum.VALID_VALUES then
    .ok { checksum_type := checksum_type, data := data }
  else
    .error (Sha3SumError.InvalidChecksumType checksum_type)

/-- src/hashing/sha3.rs: `Sha3Sum::get_checksum`. -/
def Sha3Sum.get_checksum (p : Primitives) (s : Sha3Sum) : Except Sha3SumError String :=
  match s.checksum_type with
  | 224 => .ok (hexEncode (p.sha3v224 s.data))
  | 256 => .ok (hexEncode (p.sha3v256 s.data))
  | 384 => .ok (hexEncode (p.sha3v384 s.data))
  | 512 => .ok (hexEncode (p.sha3v512 s.data))
  | _ => .error (Sha3SumError.UnexpectedError "invalid sha3sum type")

/-- src/hashing/blake2b.rs: `struct Blake2b` (the i32 width field is
modelled as the nonnegative values actually reachable from the CLI's
usize bit length). -/
structure Blake2b where
  checksum_type : Nat
  data : List Nat
  deriving DecidableEq, Repr

/-- src/hashing/blake2b.rs: `Blake2b::VALID_VALUES`, all multiples of 8
from 8 to 512. -/
def Blake2b.VALID_VALUES : List Nat :=
  [8, 16, 24, 32, 40, 48, 56, 64, 72, 80, 88, 96, 104, 112, 120, 128, 136, 144,
   152, 160, 168, 176, 184, 192, 200, 208, 216, 224, 232, 240, 248, 256, 264,
   272, 280, 288, 296, 304, 312, 320, 328, 336, 344, 352, 360, 368, 376, 384,
   392, 400, 408, 416, 424, 432, 440, 448, 456, 464, 472, 480, 488, 496, 504, 512]

/-- src/hashing/blake2b.rs: `Blake2b::new`. -/
def Blake2b.new (checksum_type : Nat) (data : List Nat) : Except B2SumError Blake2b :=
  if checksum_type ∈ Blake2b.VALID_VALUES then
    .ok { checksum_type := checksum_type, data := data }
  else
    .error (B2SumError.InvalidChecksumType checksum_type)

/-- src/hashing/blake2b.rs: `Blake2b::get_checksum`: re-validate the
width (the source hits `unreachable!()` otherwise, modelled by the empty
string), then hash with `width / 8` output bytes and hex-encode. -/
def Blake2b.get_checksum (p : Primitives) (s : Blake2b) : String :=
  let bits := s.checksum_type
  if bits = 0 ∨ bits % 8 ≠ 0 ∨ bits > 512 then ""
  else
    let out_bytes := bits / 8
    hexEncode (p.blake2bVar out_bytes s.data)

/-- src/hashing/md5.rs: `struct Md5Sum`. -/
structure Md5Sum where
  data : List Nat
  deriving DecidableEq, Repr

/-- src/hashing/md5.rs: `Md5Sum::new` takes no width at all. -/
def Md5Sum.new (data : List Nat) : Md5Sum := { data := data }

/-- src/hashing/md5.rs: `Md5Sum::get_checksum` = `format!("{:x}",
md5::compute(data))`, always successful (the source wraps the string in
`Ok` unconditionally). -/
def Md5Sum.get_checksum (p : Primitives) (s : Md5Sum) : String :=
  hexEncode (p.md5 s.data)

/-- The per-family construction errors as unified by `anyhow::Error` in
src/main.rs. -/
inductive CalcError where
  | sha (e : ShaSumError)
  | sha3 (e : Sha3SumError)
  | b2 (e : B2SumError)
  deriving DecidableEq, Repr

/-- src/main.rs: `calculate_checksum` — dispatch on the algorithm kind,
propagate the constructor's width-validation error, then take the
checksum string. -/
def calculate_checksum (p : Primitives) (checksum : Checksum) (bit_length : Nat)
    (data : List Nat) : Except CalcError String :=
  match checksum with
  | .Sha => ((ShaSum.new bit_length data).map (ShaSum.get_checksum p)).mapError CalcError.sha
  | .Blake2b => ((Blake2b.new bit_length data).map (Blake2b.get_checksum p)).mapError CalcError.b2
  | .Md5 => .ok (Md5Sum.get_checksum p (Md5Sum.new data))
  | .Sha3 =>
    ((Sha3Sum.new bit_length data).mapError CalcError.sha3).bind
      (fun s => (Sha3Sum.get_checksum p s).mapError CalcError.sha3)

/-- The valid-width table of each algorithm kind, from the per-impl
`VALID_VALUES` constants of the `Hasher` trait. -/
def validWidths : Checksum → List Nat
  | .Sha => ShaSum.VALID_VALUES
  | .Sha3 => Sha3Sum.VALID_VALUES
  | .Md5 => [128]
  | .Blake2b => Blake2b.VALID_VALUES

/-- src/main.rs, `checksum_files` (lines 177-213): the manifest line
rendered for one file, with the computed checksum string as the digest
parameter; `tagged` is the `--bsd` flag.  The format strings are taken
verbatim from the `println!` calls: BSD style is
ALGO-LABEL, space, parenthesised path, space, equals sign, space,
digest; default style is digest, separator, path — a single space for
Sha, two spaces for Blake2b, Md5 and Sha3. -/
def render (checksum : Checksum) (bit_length : Nat) (path digest : String)
    (tagged : Bool) : String :=
  match checksum, tagged with
  | .Sha, true =>
    if bit_length = 160 then "SHA1 (" ++ path ++ ") = " ++ digest
    else "SHA" ++ natToString bit_length ++ " (" ++ path ++ ") = " ++ digest
  | .Sha, false => digest ++ " " ++ path
  | .Blake2b, true => "BLAKE2b-" ++ natToString bit_length ++ " (" ++ path ++ ") = " ++ digest
  | .Blake2b, false => digest ++ "  " ++ path
  | .Md5, true => "MD5 (" ++ path ++ ") = " ++ digest
  | .Md5, false => digest ++ "  " ++ path
  | .Sha3, true => "SHA3-" ++ natToString bit_length ++ " (" ++ path ++ ") = " ++ digest
  | .Sha3, false => digest ++ "  " ++ path

/-- Accumulator-based whitespace tokenizer: the embedding of Rust's
`str::split_whitespace` (empty tokens are never produced). -/
def splitWsAux : List Char → List Char → List String
  | [], acc => if acc.isEmpty then [] else [⟨acc.reverse⟩]
  | c :: cs, acc =>
    if c.isWhitespace then
      if acc.isEmpty then splitWsAux cs []
      else ⟨acc.reverse⟩ :: splitWsAux cs []
    else splitWsAux cs (c :: acc)

/-- The whitespace-separated tokens of a line, as in
`line.split_whitespace().collect()` in `check_files`. -/
def splitWhitespace (s : String) : List String := splitWsAux s.data []

/-- Rust's `str::starts_with` with a single-character pattern. -/
def strStartsWith (s : String) (c : Char) : Bool :=
  match s.data with
  | [] => false
  | d :: _ => d == c

/-- Rust's `str::trim_start_matches` with a single-character pattern:
remove every leading occurrence. -/
def trimStartMatches (c : Char) (s : String) : String :=
  ⟨s.data.dropWhile (fun d => d == c)⟩

/-- Rust's `str::trim_end_matches` with a single-character pattern:
remove every trailing occurrence. -/
def trimEndMatches (c : Char) (s : String) : String :=
  ⟨(s.data.reverse.dropWhile (fun d => d == c)).reverse⟩

/-- The outcome of decoding one manifest line in `check_files`
(src/main.rs lines 127-144): lines with fewer than two tokens are
skipped; if the second token begins with a parenthesis the BSD branch
reads the expected digest at token index 3, which panics with an
out-of-bounds index when the line has fewer than four tokens; otherwise
the default branch takes (token 0, token 1). -/
inductive ParseOutcome where
  | skip
  | panic
  | entry (expected_checksum : String) (file_path : String)
  deriving DecidableEq, Repr

/-- Decoding of one manifest line, from the body of the `check_files`
loop. -/
def parse_line (line : String) : ParseOutcome :=
  match splitWhitespace line with
  | [] => .skip
  | [_] => .skip
  | p0 :: p1 :: rest =>
    if strStartsWith p1 '(' then
      match rest with
      | _ :: p3 :: _ => .entry p3 (trimEndMatches ')' (trimStartMatches '(' p1))
      | _ => .panic
    else
      .entry p0 p1

/-- One verification result line, `path: OK` or `path: FAILED`. -/
inductive VerifyEvent where
  | ok (path : String)
  | failed (path : String)
  deriving DecidableEq, Repr

/-- The text printed for one verification event. -/
def VerifyEvent.render : VerifyEvent → String
  | .ok p => p ++ ": OK"
  | .failed p => p ++ ": FAILED"

/-- Abrupt terminations of `check_files`: an I/O failure propagated by
the question-mark operator when the referenced file cannot be opened or
read, a checksum-construction error likewise propagated, or the index
panic of the BSD branch. -/
inductive RunError where
  | ioError (path : String)
  | calcError (e : CalcError)
  | panicked
  deriving DecidableEq, Repr

/-- The modelled file system: an association list from paths to byte
contents; `none` means `File::open`/read fails for that path. -/
def lookupFile : List (String × List Nat) → String → Option (List Nat)
  | [], _ => none
  | (p, c) :: rest, q => if p = q then some c else lookupFile rest q

/-- src/main.rs, `check_files` (lines 120-162), applied to the manifest's
already-read lines (`contents.lines()`): for each line, decode it, open
and read the referenced file, recompute the checksum and emit OK or
FAILED.  The result is the list of events emitted before termination,
paired with the abrupt error if the loop was exited early: a failed
`File::open`/`read_to_end` or a `calculate_checksum` error is propagated
by the question-mark operator and ends the whole function. -/
def check_files (p : Primitives) (fs : List (String × List Nat)) (checksum : Checksum)
    (bit_length : Nat) : List String → List VerifyEvent × Option RunError
  | [] => ([], none)
  | line :: rest =>
    match parse_line line with
    | .skip => check_files p fs checksum bit_length rest
    | .panic => ([], some RunError.panicked)
    | .entry expected path =>
      match lookupFile fs path with
      | none => ([], some (RunError.ioError path))
      | some contents =>
        match calculate_checksum p checksum bit_length contents with
        | .error e => ([], some (RunError.calcError e))
        | .ok actual =>
          let ev := if actual = expected then VerifyEvent.ok path else VerifyEvent.failed path
          let res := check_files p fs checksum bit_length rest
          (ev :: res.1, res.2)

/-- Whether a string occurs as a contiguous substring of another,
character-level; used to state what an error message names. -/
def hasPrefixChars : List Char → List Char → Bool
  | [], _ => true
  | _ :: _, [] => false
  | a :: as, b :: bs => a == b && hasPrefixChars as bs

/-- Scan for an occurrence of `sub` anywhere in the character list. -/
def containsChars (sub : List Char) : List Char → Bool
  | [] => hasPrefixChars sub []
  | b :: bs => hasPrefixChars sub (b :: bs) || containsChars sub bs

/-- String-level containment test (as Rust's `str::contains`). -/
def containsStr (s sub : String) : Bool := containsChars sub.data s.data

/-- A character list free of whitespace. -/
def NoWs (l : List Char) : Prop := ∀ c ∈ l, c.isWhitespace = false

instance (l : List Char) : Decidable (NoWs l) :=
  inferInstanceAs (Decidable (∀ c ∈ l, c.isWhitespace = false))

/-- Rust's `str::ends_with` with a single-character pattern: the last
character equals `c`. -/
def strEndsWith (s : String) (c : Char) : Bool :=
  match s.data.reverse with
  | [] => false
  | d :: _ => d == c

theorem string_data_append (s t : String) : (s ++ t).data = s.data ++ t.data := by
  cases s; cases t; rfl

theorem string_length_mk (l : List Char) : (⟨l⟩ : String).length = l.length := rfl

theorem hexEncodeChars_length (bs : List Nat) :
    (hexEncodeChars bs).length = 2 * bs.length := by
  induction bs with
  | nil => rfl
  | cons b bs ih => simp [hexEncodeChars, ih]; omega

theorem hexEncode_length (bs : List Nat) : (hexEncode bs).length = 2 * bs.length :=
  hexEncodeChars_length bs

theorem hexDigitChar_lower {n : Nat} (h : n < 16) :
    isLowerHexChar (hexDigitChar n) = true := by
  interval_cases n <;> decide

theorem hexEncode_lower (bs : List Nat) :
    (hexEncode bs).data.all isLowerHexChar = true := by
  show (hexEncodeChars bs).all isLowerHexChar = true
  induction bs with
  | nil => rfl
  | cons b bs ih =>
    simp only [hexEncodeChars, List.all_cons, ih, Bool.and_true]
    rw [hexDigitChar_lower (Nat.mod_lt _ (by omega)),
      hexDigitChar_lower (Nat.mod_lt _ (by omega))]
    rfl

theorem blake2b_mem_iff (w : Nat) :
    w ∈ Blake2b.VALID_VALUES ↔ (w % 8 = 0 ∧ 8 ≤ w ∧ w ≤ 512) := by
  simp only [Blake2b.VALID_VALUES, List.mem_cons, List.not_mem_nil, or_false]
  omega

theorem decDigitsAux_noWs (fuel : Nat) : ∀ n c, c ∈ decDigitsAux fuel n →
    c.isWhitespace = false := by
  induction fuel with
  | zero => intro n c hc; simp [decDigitsAux] at hc
  | succ fuel ih =>
    intro n c hc
    by_cases h : n < 10
    · rw [decDigitsAux, if_pos h] at hc
      rcases List.mem_singleton.mp hc with rfl
      interval_cases n <;> decide
    · rw [decDigitsAux, if_neg h] at hc
      rcases List.mem_append.mp hc with h1 | h1
      · exact ih _ _ h1
      · rcases List.mem_singleton.mp h1 with rfl
        have h2 : n % 10 < 10 := Nat.mod_lt _ (by omega)
        interval_cases h3 : n % 10 <;> decide

theorem natToString_noWs (n : Nat) : NoWs (natToString n).data := by
  intro c hc
  exact decDigitsAux_noWs _ _ _ hc

theorem hasPrefixChars_self_append (l r : List Char) :
    hasPrefixChars l (l ++ r) = true := by
  induction l with
  | nil => rfl
  | cons a as ih => simp [hasPrefixChars, ih]

theorem containsChars_nil (l : List Char) : containsChars [] l = true := by
  induction l with
  | nil => rfl
  | cons b bs ih => simp [containsChars, hasPrefixChars]

theorem containsChars_middle (pre sub post : List Char) :
    containsChars sub (pre ++ sub ++ post) = true := by
  induction pre with
  | nil =>
    cases sub with
    | nil => simpa using containsChars_nil post
    | cons s ss =>
      have h := hasPrefixChars_self_append (s :: ss) post
      show (hasPrefixChars (s :: ss) ((s :: ss) ++ post) ||
        containsChars (s :: ss) (ss ++ post)) = true
      rw [h, Bool.true_or]
  | cons c pre ih =>
    show containsChars sub (c :: (pre ++ sub ++ post)) = true
    rw [List.append_assoc] at ih
    simp [containsChars, ih]

theorem containsStr_middle (a sub b : String) :
    containsStr (a ++ sub ++ b) sub = true := by
  show containsChars sub.data (a ++ sub ++ b).data = true
  rw [string_data_append, string_data_append]
  exact containsChars_middle a.data sub.data b.data

theorem splitWsAux_word (w : List Char) (hw : NoWs w) :
    ∀ rest acc, splitWsAux (w ++ rest) acc = splitWsAux rest (w.reverse ++ acc) := by
  induction w with
  | nil => intro rest acc; simp
  | cons c cs ih =>
    intro rest acc
    have hc : c.isWhitespace = false := hw c (by simp)
    show splitWsAux (c :: (cs ++ rest)) acc = _
    rw [splitWsAux, hc]
    simp only [Bool.false_eq_true, if_false]
    rw [ih (fun d hd => hw d (by simp [hd])) rest (c :: acc)]
    simp

theorem splitWsAux_word_space (w : List Char) (hne : w ≠ []) (hw : NoWs w)
    (rest : List Char) :
    splitWsAux (w ++ ' ' :: rest) [] = ⟨w⟩ :: splitWsAux rest [] := by
  rw [splitWsAux_word w hw]
  rw [splitWsAux]
  have : (' ').isWhitespace = true := by decide
  rw [this]
  simp [List.isEmpty_iff, hne]

theorem splitWsAux_spaces (k : Nat) (rest : List Char) :
    splitWsAux (List.replicate k ' ' ++ rest) [] = splitWsAux rest [] := by
  induction k with
  | zero => simp
  | succ k ih =>
    show splitWsAux (' ' :: (List.replicate k ' ' ++ rest)) [] = _
    rw [splitWsAux]
    have : (' ').isWhitespace = true := by decide
    rw [this]
    simpa using ih

theorem splitWsAux_last (w : List Char) (hne : w ≠ []) (hw : NoWs w) :
    splitWsAux w [] = [⟨w⟩] := by
  have h := splitWsAux_word w hw [] []
  simp only [List.append_nil] at h
  rw [h, splitWsAux]
  simp [List.isEmpty_iff, hne]

theorem dropWhile_not_head {c : Char} {l : List Char}
    (h : strStartsWith ⟨l⟩ c = false) : l.dropWhile (fun d => d == c) = l := by
  cases l with
  | nil => rfl
  | cons d ds =>
    have hd : (d == c) = false := h
    simp [List.dropWhile, hd]

theorem trimStart_paren (path : List Char) (hs : strStartsWith ⟨path⟩ '(' = false) :
    trimStartMatches '(' ⟨'(' :: (path ++ [')'])⟩ = ⟨path ++ [')']⟩ := by
  show (⟨('(' :: (path ++ [')'])).dropWhile (fun d => d == '(')⟩ : String) = _
  rw [List.dropWhile]
  simp only [beq_self_eq_true, if_true]
  cases path with
  | nil => rfl
  | cons d ds =>
    have hd : (d == '(') = false := hs
    simp [List.dropWhile, hd]

theorem trimEnd_paren (path : List Char) (he : strEndsWith ⟨path⟩ ')' = false) :
    trimEndMatches ')' ⟨path ++ [')']⟩ = ⟨path⟩ := by
  show (⟨((path ++ [')']).reverse.dropWhile (fun d => d == ')')).reverse⟩ : String) = _
  rw [List.reverse_append]
  simp only [List.reverse_cons, List.reverse_nil, List.nil_append, List.singleton_append]
  rw [List.dropWhile]
  simp only [beq_self_eq_true, if_true]
  rcases hrev : path.reverse with _ | ⟨e, r⟩
  · have : path = [] := by simpa using congrArg List.reverse hrev
    subst this
    rfl
  · have hd : (e == ')') = false := by
      have : strEndsWith ⟨path⟩ ')' = (e == ')') := by
        show (match path.reverse with | [] => false | d :: _ => d == ')') = _
        rw [hrev]
      rw [this] at he
      exact he
    rw [List.dropWhile]
    rw [hd]
    simp only [Bool.false_eq_true, if_false]
    have : (e :: r).reverse = path := by
      rw [← hrev, List.reverse_reverse]
    rw [this]

theorem noWs_append {a b : List Char} (ha : NoWs a) (hb : NoWs b) : NoWs (a ++ b) := by
  intro c hc
  rcases List.mem_append.mp hc with h | h
  · exact ha c h
  · exact hb c h

theorem splitWs_tagged (ld pd dd : List Char)
    (hl : ld ≠ []) (hlw : NoWs ld) (hpw : NoWs pd) (hdne : dd ≠ []) (hdw : NoWs dd) :
    splitWhitespace (⟨ld⟩ ++ " (" ++ ⟨pd⟩ ++ ") = " ++ ⟨dd⟩) =
      [⟨ld⟩, ⟨'(' :: (pd ++ [')'])⟩, "=", ⟨dd⟩] := by
  have h1 : (" (" : String).data = [' ', '('] := by decide
  have h2 : (") = " : String).data = [')', ' ', '=', ' '] := by decide
  have hdata : ((⟨ld⟩ ++ " (" ++ ⟨pd⟩ ++ ") = " ++ ⟨dd⟩ : String)).data =
      ld ++ (' ' :: (('(' :: (pd ++ [')'])) ++ (' ' :: (['='] ++ (' ' :: dd))))) := by
    simp only [string_data_append, h1, h2]
    simp [List.append_assoc]
  show splitWsAux ((⟨ld⟩ ++ " (" ++ ⟨pd⟩ ++ ") = " ++ ⟨dd⟩ : String)).data [] = _
  rw [hdata]
  rw [splitWsAux_word_space ld hl hlw]
  have htok2 : NoWs ('(' :: (pd ++ [')'])) := by
    intro c hc
    rcases List.mem_cons.mp hc with rfl | hc
    · decide
    · rcases List.mem_append.mp hc with h | h
      · exact hpw c h
      · rcases List.mem_singleton.mp h with rfl; decide
  rw [splitWsAux_word_space _ (by simp) htok2]
  rw [splitWsAux_word_space ['='] (by simp) (by decide)]
  rw [splitWsAux_last dd hdne hdw]

theorem parse_render_tagged (label path digest : String)
    (hl : label.data ≠ []) (hlw : NoWs label.data)
    (hpw : NoWs path.data) (hps : strStartsWith path '(' = false)
    (hpe : strEndsWith path ')' = false)
    (hdne : digest.data ≠ []) (hdw : NoWs digest.data) :
    parse_line (label ++ " (" ++ path ++ ") = " ++ digest) =
      ParseOutcome.entry digest path := by
  obtain ⟨ld⟩ := label
  obtain ⟨pd⟩ := path
  obtain ⟨dd⟩ := digest
  have hsplit := splitWs_tagged ld pd dd hl hlw hpw hdne hdw
  rw [parse_line, hsplit]
  have hstart : strStartsWith ⟨'(' :: (pd ++ [')'])⟩ '(' = true := by
    show (('(' : Char) == '(') = true
    decide
  simp only [hstart, if_true]
  rw [trimStart_paren pd hps, trimEnd_paren pd hpe]

theorem splitWs_untagged (dd pd : List Char) (k : Nat)
    (hdne : dd ≠ []) (hdw : NoWs dd) (hpne : pd ≠ []) (hpw : NoWs pd) :
    splitWhitespace (⟨dd⟩ ++ ⟨List.replicate (k + 1) ' '⟩ ++ ⟨pd⟩) = [⟨dd⟩, ⟨pd⟩] := by
  have hdata : ((⟨dd⟩ ++ ⟨List.replicate (k + 1) ' '⟩ ++ ⟨pd⟩ : String)).data =
      dd ++ (' ' :: (List.replicate k ' ' ++ pd)) := by
    simp only [string_data_append]
    simp [List.replicate_succ]
  show splitWsAux ((⟨dd⟩ ++ ⟨List.replicate (k + 1) ' '⟩ ++ ⟨pd⟩ : String)).data [] = _
  rw [hdata]
  rw [splitWsAux_word_space dd hdne hdw]
  rw [splitWsAux_spaces]
  rw [splitWsAux_last pd hpne hpw]

theorem parse_render_untagged (digest path : String) (k : Nat)
    (hdne : digest.data ≠ []) (hdw : NoWs digest.data)
    (hpne : path.data ≠ []) (hpw : NoWs path.data)
    (hps : strStartsWith path '(' = false) :
    parse_line (digest ++ ⟨List.replicate (k + 1) ' '⟩ ++ path) =
      ParseOutcome.entry digest path := by
  obtain ⟨dd⟩ := digest
  obtain ⟨pd⟩ := path
  have hsplit := splitWs_untagged dd pd k hdne hdw hpne hpw
  rw [parse_line, hsplit]
  simp only [hps, Bool.false_eq_true, if_false]

/-- C3: constructing a Blake2b digest computation for width w succeeds if
and only if w is a multiple of 8 with 8 <= w <= 512, and any other width
fails with the invalid-checksum-type error carrying that width;
`Blake2b.new` performs no hashing, so the failure precedes any hashing. -/
theorem blake2b_width_validation (w : Nat) (d : List Nat) :
    Blake2b.new w d =
      if w % 8 = 0 ∧ 8 ≤ w ∧ w ≤ 512 then
        Except.ok { checksum_type := w, data := d }
      else Except.error (B2SumError.InvalidChecksumType w) := by
  rw [Blake2b.new]
  by_cases h : w % 8 = 0 ∧ 8 ≤ w ∧ w ≤ 512
  · rw [if_pos ((blake2b_mem_iff w).mpr h), if_pos h]
  · rw [if_neg (fun hm => h ((blake2b_mem_iff w).mp hm)), if_neg h]

/-- C4: constructing a Sha digest computation succeeds exactly for widths
160, 224, 256, 384, 512 and otherwise fails with
InvalidChecksumType(w); constructing a Sha3 computation succeeds exactly
for widths 224, 256, 384, 512 and otherwise fails with
InvalidChecksumType(w). -/
theorem sha_sha3_width_validation (w : Nat) (d : List Nat) :
    (ShaSum.new w d =
      if w = 160 ∨ w = 224 ∨ w = 256 ∨ w = 384 ∨ w = 512 then
        Except.ok { checksum_bits := w, data := d }
      else Except.error (ShaSumError.InvalidChecksumType w)) ∧
    (Sha3Sum.new w d =
      if w = 224 ∨ w = 256 ∨ w = 384 ∨ w = 512 then
        Except.ok { checksum_type := w, data := d }
      else Except.error (Sha3SumError.InvalidChecksumType w)) := by
  constructor
  · have hiff : w ∈ ShaSum.VALID_VALUES ↔
        (w = 160 ∨ w = 224 ∨ w = 256 ∨ w = 384 ∨ w = 512) := by
      simp [ShaSum.VALID_VALUES]
    rw [ShaSum.new]
    by_cases h : w = 160 ∨ w = 224 ∨ w = 256 ∨ w = 384 ∨ w = 512
    · rw [if_pos (hiff.mpr h), if_pos h]
    · rw [if_neg (fun hm => h (hiff.mp hm)), if_neg h]
  · have hiff : w ∈ Sha3Sum.VALID_VALUES ↔
        (w = 224 ∨ w = 256 ∨ w = 384 ∨ w = 512) := by
      simp [Sha3Sum.VALID_VALUES]
    rw [Sha3Sum.new]
    by_cases h : w = 224 ∨ w = 256 ∨ w = 384 ∨ w = 512
    · rw [if_pos (hiff.mpr h), if_pos h]
    · rw [if_neg (fun hm => h (hiff.mp hm)), if_neg h]

/-- C6 counterexample: the default (non-tagged) Sha line joins digest and
path with a single space, not two — the rendered line differs from the
two-space line the claim requires. -/
theorem default_separator_counterexample :
    render Checksum.Sha 256 "p" "d" false = "d p" ∧
    ("d p" : String) ≠ "d" ++ "  " ++ "p" := by
  exact ⟨rfl, by decide⟩

/-- C6 (amended): the default output line is digest, two spaces, path for
Blake2b, Md5 and Sha3, but digest, ONE space, path for Sha — the Sha
separator differs from the other three. -/
theorem default_separator_amended (w : Nat) (path digest : String) :
    render Checksum.Blake2b w path digest false = digest ++ "  " ++ path ∧
    render Checksum.Md5 w path digest false = digest ++ "  " ++ path ∧
    render Checksum.Sha3 w path digest false = digest ++ "  " ++ path ∧
    render Checksum.Sha w path digest false = digest ++ " " ++ path :=
  ⟨rfl, rfl, rfl, rfl⟩

/-- C7: computing an Md5 digest never fails for any requested width: the
width argument is ignored (any two widths give the same result) and the
result is the hex encoding of the 128-bit (16-byte, 32 hex characters)
MD5 digest of the buffer. -/
theorem md5_width_ignored (p : Primitives) (hWF : p.WF) (w w2 : Nat)
    (data : List Nat) :
    calculate_checksum p Checksum.Md5 w data = Except.ok (hexEncode (p.md5 data)) ∧
    calculate_checksum p Checksum.Md5 w data = calculate_checksum p Checksum.Md5 w2 data ∧
    (hexEncode (p.md5 data)).length = 32 := by
  obtain ⟨h1, h2, h3, h4, h5, h6, h7, h8, h9, h10, h11⟩ := hWF
  refine ⟨rfl, rfl, ?_⟩
  rw [hexEncode_length, h10]

/-- Witness for C7 at concrete inputs. -/
theorem md5_width_ignored_witness :
    dummyPrim.WF ∧
    (calculate_checksum dummyPrim Checksum.Md5 999 [1, 2, 3] =
        Except.ok (hexEncode (dummyPrim.md5 [1, 2, 3])) ∧
      calculate_checksum dummyPrim Checksum.Md5 999 [1, 2, 3] =
        calculate_checksum dummyPrim Checksum.Md5 128 [1, 2, 3] ∧
      (hexEncode (dummyPrim.md5 [1, 2, 3])).length = 32) :=
  ⟨dummyPrim_wf, md5_width_ignored dummyPrim dummyPrim_wf 999 128 [1, 2, 3]⟩

/-- C1 counterexample: a manifest whose first entry references a missing
file and whose second entry would verify OK on its own; `check_files`
stops at the I/O error and emits nothing for the second entry, so
processing does NOT continue to subsequent manifest lines. -/
theorem io_error_continue_counterexample :
    check_files dummyPrim [("f2", [])] Checksum.Md5 128
        ["aa missing", "00000000000000000000000000000000 f2"] =
      ([], some (RunError.ioError "missing")) ∧
    check_files dummyPrim [("f2", [])] Checksum.Md5 128
        ["00000000000000000000000000000000 f2"] =
      ([VerifyEvent.ok "f2"], none) := by
  exact ⟨rfl, rfl⟩

/-- C1 (amended): in verification mode, if opening or reading the
referenced file of a decoded manifest line fails, the I/O error
propagates out of `check_files` (the question-mark operator) and halts
processing: no result is emitted for that entry or for any subsequent
manifest line. -/
theorem io_error_halts_remaining_entries (p : Primitives)
    (fs : List (String × List Nat)) (checksum : Checksum) (bit_length : Nat)
    (line : String) (rest : List String) (d path : String)
    (hparse : parse_line line = ParseOutcome.entry d path)
    (hmiss : lookupFile fs path = none) :
    check_files p fs checksum bit_length (line :: rest) =
      ([], some (RunError.ioError path)) := by
  simp only [check_files, hparse, hmiss]

/-- Witness for C1's amended theorem at concrete inputs. -/
theorem io_error_halts_remaining_entries_witness :
    parse_line "aa missing" = ParseOutcome.entry "aa" "missing" ∧
    lookupFile [("f2", ([] : List Nat))] "missing" = none ∧
    check_files dummyPrim [("f2", [])] Checksum.Md5 128
        ["aa missing", "bb f2"] = ([], some (RunError.ioError "missing")) :=
  ⟨rfl, rfl,
    io_error_halts_remaining_entries dummyPrim [("f2", [])] Checksum.Md5 128
      "aa missing" ["bb f2"] "aa" "missing" rfl rfl⟩

/-- C9: a two-entry manifest whose entries both decode and whose
referenced files are both readable, the first digest matching and the
second not, yields exactly one OK and one FAILED event in manifest
order with no abrupt termination; symmetrically with the mismatching
entry first, verification still continues past the FAILED entry to emit
the OK one. -/
theorem verify_ok_failed_in_order (p : Primitives) (fs : List (String × List Nat))
    (checksum : Checksum) (bit_length : Nat) (l1 l2 d1 p1 d2 p2 : String)
    (c1 c2 : List Nat) (a2 : String)
    (hl1 : parse_line l1 = ParseOutcome.entry d1 p1)
    (hf1 : lookupFile fs p1 = some c1)
    (hc1 : calculate_checksum p checksum bit_length c1 = Except.ok d1)
    (hl2 : parse_line l2 = ParseOutcome.entry d2 p2)
    (hf2 : lookupFile fs p2 = some c2)
    (hc2 : calculate_checksum p checksum bit_length c2 = Except.ok a2)
    (hne : a2 ≠ d2) :
    check_files p fs checksum bit_length [l1, l2] =
      ([VerifyEvent.ok p1, VerifyEvent.failed p2], none) ∧
    (check_files p fs checksum bit_length [l1, l2]).1.map VerifyEvent.render =
      [p1 ++ ": OK", p2 ++ ": FAILED"] ∧
    check_files p fs checksum bit_length [l2, l1] =
      ([VerifyEvent.failed p2, VerifyEvent.ok p1], none) := by
  refine ⟨?_, ?_, ?_⟩
  · simp only [check_files, hl1, hf1, hc1, hl2, hf2, hc2, if_pos rfl, if_neg hne, if_true]
  · simp only [check_files, hl1, hf1, hc1, hl2, hf2, hc2, if_pos rfl, if_neg hne, if_true]
    simp [VerifyEvent.render]
  · simp only [check_files, hl1, hf1, hc1, hl2, hf2, hc2, if_pos rfl, if_neg hne, if_true]

/-- Witness for C9 at concrete inputs: f1 matches the all-zero dummy MD5
digest, f2 is expected to have digest "ff" but recomputes to the
all-zero digest. -/
theorem verify_ok_failed_in_order_witness :
    parse_line "00000000000000000000000000000000 f1" =
      ParseOutcome.entry "00000000000000000000000000000000" "f1" ∧
    parse_line "ff f2" = ParseOutcome.entry "ff" "f2" ∧
    ("00000000000000000000000000000000" : String) ≠ "ff" ∧
    (check_files dummyPrim [("f1", []), ("f2", [])] Checksum.Md5 128
        ["00000000000000000000000000000000 f1", "ff f2"] =
      ([VerifyEvent.ok "f1", VerifyEvent.failed "f2"], none) ∧
    (check_files dummyPrim [("f1", []), ("f2", [])] Checksum.Md5 128
        ["00000000000000000000000000000000 f1", "ff f2"]).1.map VerifyEvent.render =
      ["f1" ++ ": OK", "f2" ++ ": FAILED"] ∧
    check_files dummyPrim [("f1", []), ("f2", [])] Checksum.Md5 128
        ["ff f2", "00000000000000000000000000000000 f1"] =
      ([VerifyEvent.failed "f2", VerifyEvent.ok "f1"], none)) :=
  ⟨rfl, rfl, by decide,
    verify_ok_failed_in_order dummyPrim [("f1", []), ("f2", [])] Checksum.Md5 128
      "00000000000000000000000000000000 f1" "ff f2"
      "00000000000000000000000000000000" "f1" "ff" "f2" [] []
      "00000000000000000000000000000000" rfl rfl rfl rfl rfl rfl (by decide)⟩

/-- C10 counterexample: the line "aa (bb" has exactly two
whitespace-separated tokens, yet decoding takes the BSD branch and
panics reading token index 3 instead of returning an entry. -/
theorem parse_line_totality_counterexample :
    (splitWhitespace "aa (bb").length = 2 ∧
    parse_line "aa (bb" = ParseOutcome.panic := by
  exact ⟨rfl, rfl⟩

/-- C10 (amended): manifest line decoding returns an (expected digest,
path) entry for every line with at least 2 whitespace-separated tokens
whose second token does not begin with a parenthesis, and for every
line with at least 4 tokens; a line with 2 or 3 tokens whose second
token begins with a parenthesis panics instead. -/
theorem parse_line_totality_amended (line : String) (p0 p1 : String)
    (rest : List String)
    (h : splitWhitespace line = p0 :: p1 :: rest)
    (hsafe : strStartsWith p1 '(' = false ∨ 2 ≤ rest.length) :
    ∃ d q, parse_line line = ParseOutcome.entry d q := by
  simp only [parse_line, h]
  by_cases hb : strStartsWith p1 '(' = true
  · simp only [hb, if_true]
    rcases hsafe with hs | hs
    · rw [hs] at hb; cases hb
    · rcases rest with _ | ⟨a, rest2⟩
      · simp at hs
      · rcases rest2 with _ | ⟨b, rest3⟩
        · simp at hs
        · exact ⟨b, _, rfl⟩
  · simp only [hb, if_false]
    exact ⟨p0, p1, rfl⟩

/-- Witness for C10's amended theorem at a concrete input. -/
theorem parse_line_totality_amended_witness :
    splitWhitespace "aa bb" = ["aa", "bb"] ∧
    strStartsWith "bb" '(' = false ∧
    ∃ d q, parse_line "aa bb" = ParseOutcome.entry d q :=
  ⟨rfl, rfl,
    parse_line_totality_amended "aa bb" "aa" "bb" [] rfl (Or.inl rfl)⟩

theorem containsStr_of_data (s sub : String) (x y : List Char)
    (h : s.data = x ++ sub.data ++ y) : containsStr s sub = true := by
  show containsChars sub.data s.data = true
  rw [h]
  exact containsChars_middle x sub.data y

/-- C5 counterexample: for the invalid Sha width 100 the error message
does not mention 224 (nor 384), although 224 and 384 are valid Sha
widths the claim requires it to enumerate; for the invalid Blake2b
width 13 the message does not mention the valid width 24 (the message
only lists 256 and 512, not every multiple of 8). -/
theorem invalid_width_message_counterexample :
    ShaSum.new 100 [] = Except.error (ShaSumError.InvalidChecksumType 100) ∧
    containsStr (ShaSumError.InvalidChecksumType 100).message "224" = false ∧
    containsStr (ShaSumError.InvalidChecksumType 100).message "384" = false ∧
    Blake2b.new 13 [] = Except.error (B2SumError.InvalidChecksumType 13) ∧
    containsStr (B2SumError.InvalidChecksumType 13).message "24" = false := by
  refine ⟨rfl, ?_, ?_, rfl, ?_⟩ <;> decide

/-- C5 (amended): every invalid-width error message names the offending
width value, but the enumerated set varies by family: the Sha message
lists only SHA1, SHA256 and SHA512 (omitting 224 and 384), the Blake2b
message lists only BLAKE2B-256 and BLAKE2B-512 (not every multiple of 8
from 8 to 512), and only the Sha3 message enumerates its full valid set
SHA3-224, SHA3-256, SHA3-384 and SHA3-512. -/
theorem invalid_width_message_amended
    (w : Nat) (d : List Nat) (hw : w ∉ ShaSum.VALID_VALUES)
    (w2 : Nat) (d2 : List Nat) (hw2 : w2 ∉ Blake2b.VALID_VALUES)
    (w3 : Nat) (d3 : List Nat) (hw3 : w3 ∉ Sha3Sum.VALID_VALUES) :
    (∃ e, ShaSum.new w d = Except.error e ∧
      containsStr e.message (natToString w) = true ∧
      containsStr e.message "SHA1" = true ∧
      containsStr e.message "SHA256" = true ∧
      containsStr e.message "SHA512" = true) ∧
    (∃ e2, Blake2b.new w2 d2 = Except.error e2 ∧
      containsStr e2.message (natToString w2) = true ∧
      containsStr e2.message "BLAKE2B-256" = true ∧
      containsStr e2.message "BLAKE2B-512" = true) ∧
    (∃ e3, Sha3Sum.new w3 d3 = Except.error e3 ∧
      containsStr e3.message (natToString w3) = true ∧
      containsStr e3.message "SHA3-224" = true ∧
      containsStr e3.message "SHA3-256" = true ∧
      containsStr e3.message "SHA3-384" = true ∧
      containsStr e3.message "SHA3-512" = true) := by
  refine ⟨⟨ShaSumError.InvalidChecksumType w, ?_, ?_, ?_, ?_, ?_⟩,
    ⟨B2SumError.InvalidChecksumType w2, ?_, ?_, ?_, ?_⟩,
    ⟨Sha3SumError.InvalidChecksumType w3, ?_, ?_, ?_, ?_, ?_, ?_⟩⟩
  · rw [ShaSum.new, if_neg hw]
  · refine containsStr_of_data _ _ ("Invalid checksum type 'SHA-").data
      ("'. The only supported types are SHA1, SHA256 and SHA512").data ?_
    simp [ShaSumError.message, string_data_append]
  · refine containsStr_of_data _ _
      (("Invalid checksum type 'SHA-").data ++ (natToString w).data ++
        ("'. The only supported types are ").data)
      (", SHA256 and SHA512").data ?_
    simp only [ShaSumError.message, string_data_append, List.append_assoc]
    congr 2
  · refine containsStr_of_data _ _
      (("Invalid checksum type 'SHA-").data ++ (natToString w).data ++
        ("'. The only supported types are SHA1, ").data)
      (" and SHA512").data ?_
    simp only [ShaSumError.message, string_data_append, List.append_assoc]
    congr 2
  · refine containsStr_of_data _ _
      (("Invalid checksum type 'SHA-").data ++ (natToString w).data ++
        ("'. The only supported types are SHA1, SHA256 and ").data)
      ([] : List Char) ?_
    simp only [ShaSumError.message, string_data_append, List.append_assoc]
    congr 2
  · rw [Blake2b.new, if_neg hw2]
  · refine containsStr_of_data _ _ ("Invalid checksum type 'BLAKE2B-").data
      ("'. The only supported types are BLAKE2B-256 and BLAKE2B-512").data ?_
    simp [B2SumError.message, string_data_append]
  · refine containsStr_of_data _ _
      (("Invalid checksum type 'BLAKE2B-").data ++ (natToString w2).data ++
        ("'. The only supported types are ").data)
      (" and BLAKE2B-512").data ?_
    simp only [B2SumError.message, string_data_append, List.append_assoc]
    congr 2
  · refine containsStr_of_data _ _
      (("Invalid checksum type 'BLAKE2B-").data ++ (natToString w2).data ++
        ("'. The only supported types are BLAKE2B-256 and ").data)
      ([] : List Char) ?_
    simp only [B2SumError.message, string_data_append, List.append_assoc]
    congr 2
  · rw [Sha3Sum.new, if_neg hw3]
  · refine containsStr_of_data _ _ ("Invalid checksum type 'SHA3-").data
      ("'. The only supported types are SHA3-224, SHA3-256, SHA3-384 and SHA3-512").data ?_
    simp [Sha3SumError.message, string_data_append]
  · refine containsStr_of_data _ _
      (("Invalid checksum type 'SHA3-").data ++ (natToString w3).data ++
        ("'. The only supported types are ").data)
      (", SHA3-256, SHA3-384 and SHA3-512").data ?_
    simp only [Sha3SumError.message, string_data_append, List.append_assoc]
    congr 2
  · refine containsStr_of_data _ _
      (("Invalid checksum type 'SHA3-").data ++ (natToString w3).data ++
        ("'. The only supported types are SHA3-224, ").data)
      (", SHA3-384 and SHA3-512").data ?_
    simp only [Sha3SumError.message, string_data_append, List.append_assoc]
    congr 2
  · refine containsStr_of_data _ _
      (("Invalid checksum type 'SHA3-").data ++ (natToString w3).data ++
        ("'. The only supported types are SHA3-224, SHA3-256, ").data)
      (" and SHA3-512").data ?_
    simp only [Sha3SumError.message, string_data_append, List.append_assoc]
    congr 2
  · refine containsStr_of_data _ _
      (("Invalid checksum type 'SHA3-").data ++ (natToString w3).data ++
        ("'. The only supported types are SHA3-224, SHA3-256, SHA3-384 and ").data)
      ([] : List Char) ?_
    simp only [Sha3SumError.message, string_data_append, List.append_assoc]
    congr 2

/-- Witness for C5's amended theorem at concrete invalid widths. -/
theorem invalid_width_message_amended_witness :
    (100 ∉ ShaSum.VALID_VALUES) ∧ (13 ∉ Blake2b.VALID_VALUES) ∧
    (300 ∉ Sha3Sum.VALID_VALUES) ∧
    ((∃ e, ShaSum.new 100 [] = Except.error e ∧
      containsStr e.message (natToString 100) = true ∧
      containsStr e.message "SHA1" = true ∧
      containsStr e.message "SHA256" = true ∧
      containsStr e.message "SHA512" = true) ∧
    (∃ e2, Blake2b.new 13 [] = Except.error e2 ∧
      containsStr e2.message (natToString 13) = true ∧
      containsStr e2.message "BLAKE2B-256" = true ∧
      containsStr e2.message "BLAKE2B-512" = true) ∧
    (∃ e3, Sha3Sum.new 300 [] = Except.error e3 ∧
      containsStr e3.message (natToString 300) = true ∧
      containsStr e3.message "SHA3-224" = true ∧
      containsStr e3.message "SHA3-256" = true ∧
      containsStr e3.message "SHA3-384" = true ∧
      containsStr e3.message "SHA3-512" = true)) :=
  ⟨by decide, by decide, by decide,
    invalid_width_message_amended 100 [] (by decide) 13 [] (by decide)
      300 [] (by decide)⟩

/-- C2 counterexample: the round-trip fails for a path containing a
space: in the default style the line "d0 a b" decodes to path "a", not
the original path "a b", so parsing the rendered line does not recover
the original (digest, path) pair for every path. -/
theorem manifest_roundtrip_counterexample :
    render Checksum.Sha 256 "a b" "d0" false = "d0 a b" ∧
    parse_line "d0 a b" = ParseOutcome.entry "d0" "a" ∧
    ParseOutcome.entry "d0" "a" ≠ ParseOutcome.entry "d0" "a b" := by
  refine ⟨rfl, rfl, by decide⟩

/-- C2 (amended): for every algorithm kind, valid width and both line
styles, parsing the rendered manifest line recovers exactly the original
(digest, path) pair, provided digest and path are nonempty and
whitespace-free, the path does not begin with an opening parenthesis and
does not end with a closing parenthesis. -/
theorem manifest_roundtrip_amended (kind : Checksum) (w : Nat)
    (_hw : w ∈ validWidths kind) (path digest : String) (tagged : Bool)
    (hpne : path.data ≠ []) (hpw : NoWs path.data)
    (hps : strStartsWith path '(' = false) (hpe : strEndsWith path ')' = false)
    (hdne : digest.data ≠ []) (hdw : NoWs digest.data) :
    parse_line (render kind w path digest tagged) =
      ParseOutcome.entry digest path := by
  have hone : (" " : String) = ⟨List.replicate (0 + 1) ' '⟩ := by decide
  have htwo : ("  " : String) = ⟨List.replicate (1 + 1) ' '⟩ := by decide
  cases tagged
  case false =>
    cases kind
    case Sha =>
      show parse_line (digest ++ " " ++ path) = ParseOutcome.entry digest path
      rw [hone]
      exact parse_render_untagged digest path 0 hdne hdw hpne hpw hps
    case Sha3 =>
      show parse_line (digest ++ "  " ++ path) = ParseOutcome.entry digest path
      rw [htwo]
      exact parse_render_untagged digest path 1 hdne hdw hpne hpw hps
    case Md5 =>
      show parse_line (digest ++ "  " ++ path) = ParseOutcome.entry digest path
      rw [htwo]
      exact parse_render_untagged digest path 1 hdne hdw hpne hpw hps
    case Blake2b =>
      show parse_line (digest ++ "  " ++ path) = ParseOutcome.entry digest path
      rw [htwo]
      exact parse_render_untagged digest path 1 hdne hdw hpne hpw hps
  case true =>
    cases kind
    case Sha =>
      show parse_line (if w = 160 then "SHA1 (" ++ path ++ ") = " ++ digest
        else "SHA" ++ natToString w ++ " (" ++ path ++ ") = " ++ digest) = _
      by_cases h160 : w = 160
      · rw [if_pos h160]
        have hsplit : ("SHA1 (" : String) = "SHA1" ++ " (" := by decide
        rw [hsplit]
        exact parse_render_tagged "SHA1" path digest (by decide) (by decide)
          hpw hps hpe hdne hdw
      · rw [if_neg h160]
        refine parse_render_tagged ("SHA" ++ natToString w) path digest ?_ ?_
          hpw hps hpe hdne hdw
        · rw [string_data_append]
          intro hnil
          exact absurd (List.append_eq_nil.mp hnil).1 (by decide)
        · rw [string_data_append]
          exact noWs_append (by decide) (natToString_noWs w)
    case Sha3 =>
      show parse_line ("SHA3-" ++ natToString w ++ " (" ++ path ++ ") = " ++ digest) = _
      refine parse_render_tagged ("SHA3-" ++ natToString w) path digest ?_ ?_
        hpw hps hpe hdne hdw
      · rw [string_data_append]
        intro hnil
        exact absurd (List.append_eq_nil.mp hnil).1 (by decide)
      · rw [string_data_append]
        exact noWs_append (by decide) (natToString_noWs w)
    case Md5 =>
      show parse_line ("MD5 (" ++ path ++ ") = " ++ digest) = _
      have hsplit : ("MD5 (" : String) = "MD5" ++ " (" := by decide
      rw [hsplit]
      exact parse_render_tagged "MD5" path digest (by decide) (by decide)
        hpw hps hpe hdne hdw
    case Blake2b =>
      show parse_line ("BLAKE2b-" ++ natToString w ++ " (" ++ path ++ ") = " ++ digest) = _
      refine parse_render_tagged ("BLAKE2b-" ++ natToString w) path digest ?_ ?_
        hpw hps hpe hdne hdw
      · rw [string_data_append]
        intro hnil
        exact absurd (List.append_eq_nil.mp hnil).1 (by decide)
      · rw [string_data_append]
        exact noWs_append (by decide) (natToString_noWs w)

/-- Witness for C2's amended theorem at concrete inputs (BSD-tagged
Blake2b-512 line for path f.txt and digest ab). -/
theorem manifest_roundtrip_amended_witness :
    512 ∈ validWidths Checksum.Blake2b ∧
    ("f.txt" : String).data ≠ [] ∧ NoWs ("f.txt" : String).data ∧
    strStartsWith "f.txt" '(' = false ∧ strEndsWith "f.txt" ')' = false ∧
    ("ab" : String).data ≠ [] ∧ NoWs ("ab" : String).data ∧
    parse_line (render Checksum.Blake2b 512 "f.txt" "ab" true) =
      ParseOutcome.entry "ab" "f.txt" :=
  ⟨by decide, by decide, by decide, by decide, by decide, by decide, by decide,
    manifest_roundtrip_amended Checksum.Blake2b 512 (by decide) "f.txt" "ab" true
      (by decide) (by decide) (by decide) (by decide) (by decide) (by decide)⟩

/-- C8: for every supported (kind, width) pair and every byte buffer,
computing the checksum succeeds and the digest string has exactly
width/4 characters (32 for Md5, whose only valid width is 128), all of
them lowercase hexadecimal digits. -/
theorem digest_length_lower_hex (p : Primitives) (hWF : p.WF) (kind : Checksum)
    (w : Nat) (data : List Nat) (hw : w ∈ validWidths kind) :
    ∃ s, calculate_checksum p kind w data = Except.ok s ∧
      s.length = w / 4 ∧ s.data.all isLowerHexChar = true := by
  obtain ⟨h1, h2, h3, h4, h5, h6, h7, h8, h9, h10, h11⟩ := hWF
  cases kind with
  | Sha =>
    simp only [validWidths, ShaSum.VALID_VALUES, List.mem_cons,
      List.not_mem_nil, or_false] at hw
    rcases hw with rfl | rfl | rfl | rfl | rfl
    · exact ⟨_, rfl, by show (hexEncode (p.sha1 data)).length = _; rw [hexEncode_length, h1], hexEncode_lower _⟩
    · exact ⟨_, rfl, by show (hexEncode (p.sha224 data)).length = _; rw [hexEncode_length, h2], hexEncode_lower _⟩
    · exact ⟨_, rfl, by show (hexEncode (p.sha256 data)).length = _; rw [hexEncode_length, h3], hexEncode_lower _⟩
    · exact ⟨_, rfl, by show (hexEncode (p.sha384 data)).length = _; rw [hexEncode_length, h4], hexEncode_lower _⟩
    · exact ⟨_, rfl, by show (hexEncode (p.sha512 data)).length = _; rw [hexEncode_length, h5], hexEncode_lower _⟩
  | Sha3 =>
    simp only [validWidths, Sha3Sum.VALID_VALUES, List.mem_cons,
      List.not_mem_nil, or_false] at hw
    rcases hw with rfl | rfl | rfl | rfl
    · exact ⟨_, rfl, by show (hexEncode (p.sha3v224 data)).length = _; rw [hexEncode_length, h6], hexEncode_lower _⟩
    · exact ⟨_, rfl, by show (hexEncode (p.sha3v256 data)).length = _; rw [hexEncode_length, h7], hexEncode_lower _⟩
    · exact ⟨_, rfl, by show (hexEncode (p.sha3v384 data)).length = _; rw [hexEncode_length, h8], hexEncode_lower _⟩
    · exact ⟨_, rfl, by show (hexEncode (p.sha3v512 data)).length = _; rw [hexEncode_length, h9], hexEncode_lower _⟩
  | Md5 =>
    simp only [validWidths, List.mem_singleton] at hw
    subst hw
    exact ⟨_, rfl, by show (hexEncode (p.md5 data)).length = _; rw [hexEncode_length, h10], hexEncode_lower _⟩
  | Blake2b =>
    have hw2 : w ∈ Blake2b.VALID_VALUES := hw
    have harith := (blake2b_mem_iff w).mp hw2
    refine ⟨hexEncode (p.blake2bVar (w / 8) data), ?_, ?_, hexEncode_lower _⟩
    · have hguard : ¬(w = 0 ∨ w % 8 ≠ 0 ∨ w > 512) := by omega
      show ((Blake2b.new w data).map (Blake2b.get_checksum p)).mapError CalcError.b2 = _
      rw [Blake2b.new, if_pos hw2]
      show Except.ok (if w = 0 ∨ w % 8 ≠ 0 ∨ w > 512 then ""
        else hexEncode (p.blake2bVar (w / 8) data)) = _
      rw [if_neg hguard]
    · rw [hexEncode_length, h11]
      omega

/-- Witness for C8 at a concrete supported pair (Sha3, 384). -/
theorem digest_length_lower_hex_witness :
    dummyPrim.WF ∧ 384 ∈ validWidths Checksum.Sha3 ∧
    ∃ s, calculate_checksum dummyPrim Checksum.Sha3 384 [0] = Except.ok s ∧
      s.length = 384 / 4 ∧ s.data.all isLowerHexChar = true :=
  ⟨dummyPrim_wf, by decide,
    digest_length_lower_hex dummyPrim dummyPrim_wf Checksum.Sha3 384 [0] (by decide)⟩

end Steadyhash
